import Mathlib

/-!
Shallow embedding of the ai-cats-sdk client library.

Source of truth: src/src/api/v1.api.ts (primary document, lines 1-263, and a
second observed variant of the same file, lines 264-464) together with the
data model in src/src/models (size.enum.ts, theme.enum.ts, interfaces).

Modelling conventions:
- JS byte buffers (ArrayBuffer / Uint8Array) are `List Nat` with every
  element < 256.
- JS strings are Lean `String` (all tokens involved are ASCII).
- URLSearchParams is a list of key/value pairs; `URLSearchParams.set`
  replaces the value when the key is present and appends otherwise.
- `fetch` is split into the request URL the function builds (the `...Url`
  definitions) and the handler applied to the transport's response (the
  `...Op` definitions, taking an `HttpResponse` that carries the status,
  status text and the body both as raw bytes and as parsed JSON).  Each
  operation performs exactly one fetch, so each `...Op` consumes exactly
  one response.
- `Math.random().toString()` is an opaque token threaded in as an argument.
-/

namespace AiCats

/-- `Size` enum from src/src/models/enums/size.enum.ts. -/
inductive Size where
  | Large
  | Medium
  | Small
  | Thumbnail
  | Icon
  | Tiny
  | Micro
deriving DecidableEq, Repr

/-- The string value of each `Size` enum member. -/
def sizeStr : Size → String
  | .Large => "1024"
  | .Medium => "512"
  | .Small => "256"
  | .Thumbnail => "128"
  | .Icon => "64"
  | .Tiny => "32"
  | .Micro => "16"

/-- `Theme` enum from src/src/models/enums/theme.enum.ts. -/
inductive Theme where
  | Default
  | Spring
  | Summer
  | Autumn
  | Winter
  | Halloween
  | Xmas
  | NewYear
  | Easter
deriving DecidableEq, Repr

/-- The string value of each `Theme` enum member. -/
def themeStr : Theme → String
  | .Default => "Default"
  | .Spring => "Spring"
  | .Summer => "Summer"
  | .Autumn => "Autumn"
  | .Winter => "Winter"
  | .Halloween => "Halloween"
  | .Xmas => "Xmas"
  | .NewYear => "NewYear"
  | .Easter => "Easter"

/-- `ResponseType` union from v1.api.ts line 6. -/
inductive ResponseType where
  | blob
  | arrayBuffer
  | base64
  | dataUrl
deriving DecidableEq, Repr

/-- The value produced by `toResponseType` (v1.api.ts lines 20-47): a Blob
tagged with a MIME type, a raw ArrayBuffer, or a string. -/
inductive ImageResponse where
  | blob (bytes : List Nat) (mime : String)
  | arrayBuffer (bytes : List Nat)
  | str (s : String)
deriving DecidableEq, Repr

/-- The base64 alphabet used by `btoa`. -/
def b64Chars : List Char :=
  "ABCDEFGHIJKLMNOPQRSTUVWXYZabcdefghijklmnopqrstuvwxyz0123456789+/".data

/-- The base64 character for a 6-bit group. -/
def b64Char (n : Nat) : Char := b64Chars.getD n 'A'

/-- The 6-bit value of a base64 character (inverse of `b64Char`). -/
def b64Val (c : Char) : Nat := b64Chars.findIdx (fun d => d == c)

/-- Embedding of the `String.fromCharCode` + `btoa` composition in
`toResponseType` (v1.api.ts lines 27-41): standard base64 of a byte
sequence, with `=` padding, no line breaks. -/
def btoa : List Nat → List Char
  | [] => []
  | [b0] => [b64Char (b0 / 4), b64Char (b0 % 4 * 16), '=', '=']
  | [b0, b1] =>
    [b64Char (b0 / 4), b64Char (b0 % 4 * 16 + b1 / 16), b64Char (b1 % 16 * 4), '=']
  | b0 :: b1 :: b2 :: rest =>
    b64Char (b0 / 4) :: b64Char (b0 % 4 * 16 + b1 / 16) ::
      b64Char (b1 % 16 * 4 + b2 / 64) :: b64Char (b2 % 64) :: btoa rest

/-- Standard base64 decoding (the spec's round-trip law decodes with plain
base64; `=` padding marks a final 1- or 2-byte group). -/
def atob : List Char → List Nat
  | c0 :: c1 :: c2 :: c3 :: rest =>
    if c2 = '=' then [b64Val c0 * 4 + b64Val c1 / 16]
    else if c3 = '=' then
      [b64Val c0 * 4 + b64Val c1 / 16, b64Val c1 % 16 * 16 + b64Val c2 / 4]
    else
      (b64Val c0 * 4 + b64Val c1 / 16) :: (b64Val c1 % 16 * 16 + b64Val c2 / 4) ::
        (b64Val c2 % 4 * 64 + b64Val c3) :: atob rest
  | _ => []

/-- `toResponseType` from v1.api.ts lines 20-47.  The `default` arm of the
source switch coincides with the `blob` arm; `ResponseType` has exactly the
four listed values. -/
def toResponseType (buffer : List Nat) : ResponseType → ImageResponse
  | .arrayBuffer => .arrayBuffer buffer
  | .base64 => .str (String.mk (btoa buffer))
  | .dataUrl => .str ("data:image/jpeg;base64," ++ String.mk (btoa buffer))
  | .blob => .blob buffer "image/jpeg"

theorem b64Val_b64Char : ∀ n, n < 64 → b64Val (b64Char n) = n := by decide

theorem b64Char_ne_pad : ∀ n, n < 64 → b64Char n ≠ '=' := by decide

/-- Decoding inverts encoding on genuine byte sequences. -/
theorem atob_btoa (bs : List Nat) : (∀ b ∈ bs, b < 256) → atob (btoa bs) = bs := by
  induction bs using btoa.induct with
  | case1 =>
    intro _
    rfl
  | case2 b0 =>
    intro h
    have hb0 : b0 < 256 := h b0 (by simp)
    simp only [btoa, atob]
    rw [if_pos trivial, b64Val_b64Char _ (by omega), b64Val_b64Char _ (by omega)]
    have : b0 / 4 * 4 + b0 % 4 * 16 / 16 = b0 := by omega
    rw [this]
  | case3 b0 b1 =>
    intro h
    have hb0 : b0 < 256 := h b0 (by simp)
    have hb1 : b1 < 256 := h b1 (by simp)
    simp only [btoa, atob]
    rw [if_neg (b64Char_ne_pad _ (by omega)), if_pos trivial,
      b64Val_b64Char _ (by omega), b64Val_b64Char _ (by omega),
      b64Val_b64Char _ (by omega)]
    have e0 : (b0 / 4) * 4 + (b0 % 4 * 16 + b1 / 16) / 16 = b0 := by omega
    have e1 : (b0 % 4 * 16 + b1 / 16) % 16 * 16 + (b1 % 16 * 4) / 4 = b1 := by omega
    rw [e0, e1]
  | case4 b0 b1 b2 rest ih =>
    intro h
    have hb0 : b0 < 256 := h b0 (by simp)
    have hb1 : b1 < 256 := h b1 (by simp)
    have hb2 : b2 < 256 := h b2 (by simp)
    have hrest : ∀ b ∈ rest, b < 256 := fun b hb => h b (by simp [hb])
    simp only [btoa, atob]
    rw [if_neg (b64Char_ne_pad _ (by omega)), if_neg (b64Char_ne_pad _ (by omega)),
      b64Val_b64Char _ (by omega), b64Val_b64Char _ (by omega),
      b64Val_b64Char _ (by omega), b64Val_b64Char _ (by omega)]
    have e0 : (b0 / 4) * 4 + (b0 % 4 * 16 + b1 / 16) / 16 = b0 := by omega
    have e1 : (b0 % 4 * 16 + b1 / 16) % 16 * 16 + (b1 % 16 * 4 + b2 / 64) / 4 = b1 := by
      omega
    have e2 : (b1 % 16 * 4 + b2 / 64) % 4 * 64 + b2 % 64 = b2 := by omega
    rw [e0, e1, e2, ih hrest]

/-- Options for `random` (v1.api.ts lines 50-57). -/
structure RandomCatOptions where
  size : Option Size := none
  theme : Option Theme := none
  responseType : Option ResponseType := none
deriving DecidableEq, Repr

/-- Options for `search` and `getSearchCompletion` (v1.api.ts lines 60-73). -/
structure SearchOptions where
  query : Option String := none
  limit : Option Nat := none
  «from» : Option String := none
  descending : Option Bool := none
  theme : Option Theme := none
  size : Option Size := none
deriving DecidableEq, Repr

/-- Options for `getSimilar` (v1.api.ts lines 76-81). -/
structure SimilarOptions where
  limit : Option Nat := none
  size : Option Size := none
deriving DecidableEq, Repr

/-- Options for `getById` (v1.api.ts lines 84-89). -/
structure GetByIdOptions where
  size : Option Size := none
  responseType : Option ResponseType := none
deriving DecidableEq, Repr

/-- `URLSearchParams.set`: replace the value when the key is already present,
append the pair otherwise.  The client never sets the same key twice, so the
replacing branch is never taken in this development. -/
def paramsSet (ps : List (String × String)) (k v : String) : List (String × String) :=
  if ps.any (fun p => p.1 == k) then ps.map (fun p => if p.1 == k then (k, v) else p)
  else ps ++ [(k, v)]

/-- JS truthiness of an optional string (`undefined` and the empty string
are falsy). -/
def truthyS : Option String → Bool
  | some s => s != ""
  | none => false

/-- JS truthiness of an optional number used as an integer (`undefined` and
`0` are falsy). -/
def truthyN : Option Nat → Bool
  | some n => n != 0
  | none => false

/-- JS truthiness of an optional boolean (`undefined` and `false` are
falsy). -/
def truthyB : Option Bool → Bool
  | some b => b
  | none => false

/-- Query parameters built by `search` (v1.api.ts lines 161-167).  `Size` and
`Theme` enum values are non-empty string literals, so for those fields JS
truthiness coincides with presence (`Option.isSome`). -/
def searchParams (o : SearchOptions) : List (String × String) :=
  let p : List (String × String) := []
  let p := if truthyS o.query then paramsSet p "query" (o.query.getD "") else p
  let p := if truthyN o.limit then paramsSet p "limit" (toString (o.limit.getD 0)) else p
  let p := if truthyS o.«from» then paramsSet p "from" (o.«from».getD "") else p
  let p := if truthyB o.descending then paramsSet p "descending" "true" else p
  let p := if o.theme.isSome then paramsSet p "theme" (themeStr (o.theme.getD Theme.Default)) else p
  let p := if o.size.isSome then paramsSet p "size" (sizeStr (o.size.getD Size.Large)) else p
  p

/-- Query parameters built by `getSearchCompletion` (v1.api.ts lines
204-210); the source repeats the `search` block verbatim. -/
def getSearchCompletionParams (o : SearchOptions) : List (String × String) :=
  let p : List (String × String) := []
  let p := if truthyS o.query then paramsSet p "query" (o.query.getD "") else p
  let p := if truthyN o.limit then paramsSet p "limit" (toString (o.limit.getD 0)) else p
  let p := if truthyS o.«from» then paramsSet p "from" (o.«from».getD "") else p
  let p := if truthyB o.descending then paramsSet p "descending" "true" else p
  let p := if o.theme.isSome then paramsSet p "theme" (themeStr (o.theme.getD Theme.Default)) else p
  let p := if o.size.isSome then paramsSet p "size" (sizeStr (o.size.getD Size.Large)) else p
  p

/-- Query parameters built by `random` (v1.api.ts lines 101-104); `rnd` is
the value of `Math.random().toString()` for this invocation. -/
def randomParams (o : RandomCatOptions) (rnd : String) : List (String × String) :=
  let p : List (String × String) := []
  let p := if o.size.isSome then paramsSet p "size" (sizeStr (o.size.getD Size.Large)) else p
  let p := if o.theme.isSome then paramsSet p "theme" (themeStr (o.theme.getD Theme.Default)) else p
  paramsSet p "rnd" rnd

/-- Query parameters built by `getSimilar` (v1.api.ts lines 186-188). -/
def similarParams (o : SimilarOptions) : List (String × String) :=
  let p : List (String × String) := []
  let p := if truthyN o.limit then paramsSet p "limit" (toString (o.limit.getD 0)) else p
  let p := if o.size.isSome then paramsSet p "size" (sizeStr (o.size.getD Size.Large)) else p
  p

/-- Characters kept verbatim by application/x-www-form-urlencoded
serialization (`URLSearchParams.toString`). -/
def formUnreserved (c : Char) : Bool :=
  ('A' ≤ c && c ≤ 'Z') || ('a' ≤ c && c ≤ 'z') || ('0' ≤ c && c ≤ '9') ||
    c == '*' || c == '-' || c == '.' || c == '_'

/-- Upper-case hex digit. -/
def hexDigit (n : Nat) : Char := "0123456789ABCDEF".data.getD n '0'

/-- Encoding of one character: unreserved characters kept, space becomes
`+`, other characters percent-encoded.  (Restricted to the ASCII range; all
tokens this client serializes are ASCII.) -/
def formEncodeChar (c : Char) : List Char :=
  if formUnreserved c then [c]
  else if c == ' ' then ['+']
  else ['%', hexDigit (c.toNat / 16 % 16), hexDigit (c.toNat % 16)]

/-- Encoding of a character sequence. -/
def formEncodeChars : List Char → List Char
  | [] => []
  | c :: cs => formEncodeChar c ++ formEncodeChars cs

/-- Encoding of a string. -/
def formEncode (s : String) : String := String.mk (formEncodeChars s.data)

/-- One `key=value` component of `URLSearchParams.toString`. -/
def pairToString (p : String × String) : String :=
  formEncode p.1 ++ "=" ++ formEncode p.2

/-- `URLSearchParams.toString`: the components joined with `&`. -/
def paramsToString : List (String × String) → String
  | [] => ""
  | [p] => pairToString p
  | p :: q :: rest => pairToString p ++ "&" ++ paramsToString (q :: rest)

/-- The `query` local of the source functions:
`params.toString() ? ?${params} : ''` (the empty string is falsy). -/
def queryString (ps : List (String × String)) : String :=
  if paramsToString ps = "" then "" else "?" ++ paramsToString ps

/-- Fixed base URL (v1.api.ts line 3). -/
def ApiUrl : String := "https://api.ai-cats.net/v1"

/-- Request URL of `random` (v1.api.ts line 107). -/
def randomUrl (o : RandomCatOptions) (rnd : String) : String :=
  ApiUrl ++ "/cat" ++ queryString (randomParams o rnd)

/-- Request URL of `getById` (v1.api.ts lines 128-129): the size defaults to
`Size.Large` via nullish coalescing and is interpolated directly. -/
def getByIdUrl (id : String) (o : GetByIdOptions) : String :=
  ApiUrl ++ "/cat/" ++ id ++ "?size=" ++ sizeStr (o.size.getD Size.Large)

/-- Request URL of `getInfo` (v1.api.ts line 146). -/
def getInfoUrl (id : String) : String := ApiUrl ++ "/cat/info/" ++ id

/-- Request URL of `search` (v1.api.ts line 170). -/
def searchUrl (o : SearchOptions) : String :=
  ApiUrl ++ "/cat/search" ++ queryString (searchParams o)

/-- Request URL of `getSimilar` (v1.api.ts line 191). -/
def getSimilarUrl (id : String) (o : SimilarOptions) : String :=
  ApiUrl ++ "/cat/similar/" ++ id ++ queryString (similarParams o)

/-- Request URL of `getSearchCompletion` (v1.api.ts line 213). -/
def getSearchCompletionUrl (o : SearchOptions) : String :=
  ApiUrl ++ "/cat/search-completion" ++ queryString (getSearchCompletionParams o)

/-- Request URL of `getThemes` in the primary document (v1.api.ts line 229). -/
def getThemesUrl : String := ApiUrl ++ "/cat/theme-list"

/-- Request URL of `getThemes` in the second observed variant of the file
(v1.api.ts line 430). -/
def getThemesV2Url : String := ApiUrl ++ "/cat/themes"

/-- Request URL of `getCount` (v1.api.ts line 246): the theme, when present
(every `Theme` value is a non-empty, truthy string), is appended as a bare
`?theme=` suffix. -/
def getCountUrl (theme : Option Theme) : String :=
  ApiUrl ++ "/cat/count" ++
    (if theme.isSome then "?theme=" ++ themeStr (theme.getD Theme.Default) else "")

/-- Parsed JSON values, as handed back by `response.json()`. -/
inductive Json where
  | null
  | bool (b : Bool)
  | num (n : Int)
  | str (s : String)
  | arr (items : List Json)
  | obj (fields : List (String × Json))

/-- JS property access `data.k` on a parsed JSON value; a missing property
(JS `undefined`) is modelled as `null`. -/
def Json.getField : Json → String → Json
  | .obj fields, k => (((fields.find? (fun f => f.1 == k)).map Prod.snd).getD .null)
  | _, _ => .null

/-- What the transport delivers for one request: HTTP success flag, the
server's status text, and the body readable as raw bytes or as parsed JSON
(spec section 6).  Each operation performs exactly one fetch, so each
handler below consumes exactly one `HttpResponse` and never retries. -/
structure HttpResponse where
  ok : Bool
  statusText : String
  bodyBytes : List Nat := []
  bodyJson : Json := Json.null

/-- Response handling of `random` (v1.api.ts lines 108-112). -/
def randomOp (o : RandomCatOptions) (resp : HttpResponse) : Except String ImageResponse :=
  if !resp.ok then Except.error ("Error fetching cat image: " ++ resp.statusText)
  else Except.ok (toResponseType resp.bodyBytes (o.responseType.getD ResponseType.blob))

/-- Response handling of `getById` (v1.api.ts lines 130-134). -/
def getByIdOp (o : GetByIdOptions) (resp : HttpResponse) : Except String ImageResponse :=
  if !resp.ok then Except.error ("Error fetching cat image: " ++ resp.statusText)
  else Except.ok (toResponseType resp.bodyBytes (o.responseType.getD ResponseType.blob))

/-- Response handling of `getInfo` (v1.api.ts lines 147-150). -/
def getInfoOp (resp : HttpResponse) : Except String Json :=
  if !resp.ok then Except.error ("Error fetching cat info: " ++ resp.statusText)
  else Except.ok resp.bodyJson

/-- Response handling of `search` (v1.api.ts lines 171-174). -/
def searchOp (resp : HttpResponse) : Except String Json :=
  if !resp.ok then Except.error ("Error searching for cats: " ++ resp.statusText)
  else Except.ok resp.bodyJson

/-- Response handling of `getSimilar` (v1.api.ts lines 192-195). -/
def getSimilarOp (resp : HttpResponse) : Except String Json :=
  if !resp.ok then Except.error ("Error fetching similar cats: " ++ resp.statusText)
  else Except.ok resp.bodyJson

/-- Response handling of `getSearchCompletion` (v1.api.ts lines 214-218). -/
def getSearchCompletionOp (resp : HttpResponse) : Except String Json :=
  if !resp.ok then Except.error ("Error fetching completion: " ++ resp.statusText)
  else Except.ok (resp.bodyJson.getField "completion")

/-- Response handling of `getThemes` (v1.api.ts lines 230-234, identical in
the second variant, lines 431-435). -/
def getThemesOp (resp : HttpResponse) : Except String Json :=
  if !resp.ok then Except.error ("Error fetching themes: " ++ resp.statusText)
  else Except.ok (resp.bodyJson.getField "themes")

/-- Response handling of `getCount` (v1.api.ts lines 247-251). -/
def getCountOp (resp : HttpResponse) : Except String Json :=
  if !resp.ok then Except.error ("Error fetching count: " ++ resp.statusText)
  else Except.ok (resp.bodyJson.getField "count")

/-- The contribution of one optional field to the built parameter list. -/
def seg (c : Bool) (k v : String) : List (String × String) :=
  if c then [(k, v)] else []

@[simp] theorem seg_false (k v : String) : seg false k v = [] := rfl

@[simp] theorem seg_true (k v : String) : seg true k v = [(k, v)] := rfl

theorem mem_seg {p : String × String} {c : Bool} {k v : String}
    (h : p ∈ seg c k v) : c = true ∧ p = (k, v) := by
  cases c
  · simp at h
  · simp at h
    exact ⟨rfl, h⟩

theorem seg_key {p : String × String} {c : Bool} {k v : String}
    (h : p ∈ seg c k v) : p.1 = k := by
  rw [(mem_seg h).2]

theorem ne_of_seg_key {p : String × String} {c : Bool} {k v k2 : String}
    (h : p ∈ seg c k v) (hne : k ≠ k2) : p.1 ≠ k2 := by
  rw [seg_key h]
  exact hne

theorem not_mem_keys_seg {c : Bool} {k v k2 : String} (h : k2 ≠ k) :
    k2 ∉ (seg c k v).map Prod.fst := by
  intro hmem
  rcases List.mem_map.mp hmem with ⟨p, hp, he⟩
  exact h (he.symm.trans (seg_key hp))

theorem map_fst_seg (c : Bool) (k v : String) :
    (seg c k v).map Prod.fst = if c then [k] else [] := by
  cases c <;> simp

theorem paramsSet_fresh (ps : List (String × String)) (k v : String)
    (h : ∀ p ∈ ps, p.1 ≠ k) : paramsSet ps k v = ps ++ [(k, v)] := by
  have ha : ps.any (fun p => p.1 == k) = false := by
    rw [List.any_eq_false]
    intro p hp
    simpa using h p hp
  simp [paramsSet, ha]

theorem ite_paramsSet_eq (ps : List (String × String)) (c : Bool) (k v : String)
    (h : ∀ p ∈ ps, p.1 ≠ k) :
    (if c then paramsSet ps k v else ps) = ps ++ seg c k v := by
  cases c
  · simp [seg]
  · simp [seg, paramsSet_fresh ps k v h]

/-- `search` builds, in insertion order, one optional segment per field:
query, limit, from, descending, theme, size. -/
theorem searchParams_canonical (o : SearchOptions) :
    searchParams o =
      seg (truthyS o.query) "query" (o.query.getD "") ++
      seg (truthyN o.limit) "limit" (toString (o.limit.getD 0)) ++
      seg (truthyS o.«from») "from" (o.«from».getD "") ++
      seg (truthyB o.descending) "descending" "true" ++
      seg o.theme.isSome "theme" (themeStr (o.theme.getD Theme.Default)) ++
      seg o.size.isSome "size" (sizeStr (o.size.getD Size.Large)) := by
  have f1 : ∀ p ∈ ([] : List (String × String)), p.1 ≠ "query" := by
    intro p hp
    simp at hp
  have f2 : ∀ p ∈ seg (truthyS o.query) "query" (o.query.getD ""), p.1 ≠ "limit" := by
    intro p hp
    exact ne_of_seg_key hp (by decide)
  have f3 : ∀ p ∈ seg (truthyS o.query) "query" (o.query.getD "") ++
      seg (truthyN o.limit) "limit" (toString (o.limit.getD 0)), p.1 ≠ "from" := by
    intro p hp
    rcases List.mem_append.mp hp with h | h
    · exact ne_of_seg_key h (by decide)
    · exact ne_of_seg_key h (by decide)
  have f4 : ∀ p ∈ seg (truthyS o.query) "query" (o.query.getD "") ++
      seg (truthyN o.limit) "limit" (toString (o.limit.getD 0)) ++
      seg (truthyS o.«from») "from" (o.«from».getD ""), p.1 ≠ "descending" := by
    intro p hp
    simp only [List.mem_append] at hp
    rcases hp with (h | h) | h <;> exact ne_of_seg_key h (by decide)
  have f5 : ∀ p ∈ seg (truthyS o.query) "query" (o.query.getD "") ++
      seg (truthyN o.limit) "limit" (toString (o.limit.getD 0)) ++
      seg (truthyS o.«from») "from" (o.«from».getD "") ++
      seg (truthyB o.descending) "descending" "true", p.1 ≠ "theme" := by
    intro p hp
    simp only [List.mem_append] at hp
    rcases hp with ((h | h) | h) | h <;> exact ne_of_seg_key h (by decide)
  have f6 : ∀ p ∈ seg (truthyS o.query) "query" (o.query.getD "") ++
      seg (truthyN o.limit) "limit" (toString (o.limit.getD 0)) ++
      seg (truthyS o.«from») "from" (o.«from».getD "") ++
      seg (truthyB o.descending) "descending" "true" ++
      seg o.theme.isSome "theme" (themeStr (o.theme.getD Theme.Default)), p.1 ≠ "size" := by
    intro p hp
    simp only [List.mem_append] at hp
    rcases hp with (((h | h) | h) | h) | h <;> exact ne_of_seg_key h (by decide)
  simp only [searchParams]
  rw [ite_paramsSet_eq [] (truthyS o.query) "query" (o.query.getD "") f1,
    List.nil_append]
  rw [ite_paramsSet_eq _ (truthyN o.limit) "limit" (toString (o.limit.getD 0)) f2]
  rw [ite_paramsSet_eq _ (truthyS o.«from») "from" (o.«from».getD "")
    (by simpa using f3)]
  rw [ite_paramsSet_eq _ (truthyB o.descending) "descending" "true"
    (by simpa using f4)]
  rw [ite_paramsSet_eq _ o.theme.isSome "theme" (themeStr (o.theme.getD Theme.Default))
    (by simpa using f5)]
  rw [ite_paramsSet_eq _ o.size.isSome "size" (sizeStr (o.size.getD Size.Large))
    (by simpa using f6)]

/-- `getSearchCompletion` builds exactly the parameters `search` builds. -/
theorem getSearchCompletionParams_eq (o : SearchOptions) :
    getSearchCompletionParams o = searchParams o := rfl

/-- `random` builds the optional size and theme segments, then always
appends the cache-busting `rnd` pair. -/
theorem randomParams_canonical (o : RandomCatOptions) (rnd : String) :
    randomParams o rnd =
      seg o.size.isSome "size" (sizeStr (o.size.getD Size.Large)) ++
      seg o.theme.isSome "theme" (themeStr (o.theme.getD Theme.Default)) ++
      [("rnd", rnd)] := by
  have f1 : ∀ p ∈ ([] : List (String × String)), p.1 ≠ "size" := by
    intro p hp
    simp at hp
  have f2 : ∀ p ∈ seg o.size.isSome "size" (sizeStr (o.size.getD Size.Large)),
      p.1 ≠ "theme" := by
    intro p hp
    exact ne_of_seg_key hp (by decide)
  have f3 : ∀ p ∈ seg o.size.isSome "size" (sizeStr (o.size.getD Size.Large)) ++
      seg o.theme.isSome "theme" (themeStr (o.theme.getD Theme.Default)),
      p.1 ≠ "rnd" := by
    intro p hp
    rcases List.mem_append.mp hp with h | h
    · exact ne_of_seg_key h (by decide)
    · exact ne_of_seg_key h (by decide)
  simp only [randomParams]
  rw [ite_paramsSet_eq [] o.size.isSome "size" (sizeStr (o.size.getD Size.Large)) f1,
    List.nil_append]
  rw [ite_paramsSet_eq _ o.theme.isSome "theme" (themeStr (o.theme.getD Theme.Default)) f2]
  rw [paramsSet_fresh _ "rnd" rnd f3]

/-- `getSimilar` builds the optional limit and size segments in order. -/
theorem similarParams_canonical (o : SimilarOptions) :
    similarParams o =
      seg (truthyN o.limit) "limit" (toString (o.limit.getD 0)) ++
      seg o.size.isSome "size" (sizeStr (o.size.getD Size.Large)) := by
  have f1 : ∀ p ∈ ([] : List (String × String)), p.1 ≠ "limit" := by
    intro p hp
    simp at hp
  have f2 : ∀ p ∈ seg (truthyN o.limit) "limit" (toString (o.limit.getD 0)),
      p.1 ≠ "size" := by
    intro p hp
    exact ne_of_seg_key hp (by decide)
  simp only [similarParams]
  rw [ite_paramsSet_eq [] (truthyN o.limit) "limit" (toString (o.limit.getD 0)) f1,
    List.nil_append]
  rw [ite_paramsSet_eq _ o.size.isSome "size" (sizeStr (o.size.getD Size.Large)) f2]

theorem strData_append (s t : String) : (s ++ t).data = s.data ++ t.data := rfl

theorem toDigitsCore_length_le (b : Nat) :
    ∀ (fuel n : Nat) (ds : List Char), ds.length ≤ (Nat.toDigitsCore b fuel n ds).length := by
  intro fuel
  induction fuel with
  | zero =>
    intro n ds
    simp [Nat.toDigitsCore]
  | succ f ih =>
    intro n ds
    simp only [Nat.toDigitsCore]
    split
    · simp
    · exact le_trans (by simp) (ih _ _)

theorem toDigitsCore_length_pos (b fuel n : Nat) (ds : List Char) (h : 0 < fuel) :
    ds.length + 1 ≤ (Nat.toDigitsCore b fuel n ds).length := by
  cases fuel with
  | zero => omega
  | succ f =>
    simp only [Nat.toDigitsCore]
    split
    · simp
    · calc ds.length + 1 = (Nat.digitChar (n % b) :: ds).length := by simp
        _ ≤ _ := toDigitsCore_length_le b f (n / b) _

/-- The decimal rendering of a natural number is never the empty string. -/
theorem natToString_ne_empty (n : Nat) : toString n ≠ "" := by
  intro h
  have hlen : 0 + 1 ≤ (toString n).data.length :=
    toDigitsCore_length_pos 10 (n + 1) n [] (by omega)
  rw [h] at hlen
  simp at hlen

theorem themeStr_ne_empty (t : Theme) : themeStr t ≠ "" := by
  cases t <;> decide

theorem sizeStr_ne_empty (s : Size) : sizeStr s ≠ "" := by
  cases s <;> decide

theorem strAppend_assoc (a b c : String) : a ++ b ++ c = a ++ (b ++ c) := by
  apply String.ext
  simp [strData_append]

/-- Appending one more pair to a non-empty parameter list appends one more
`&`-separated component to the serialization. -/
theorem paramsToString_append_single (ps : List (String × String)) (p : String × String) :
    paramsToString (ps ++ [p]) =
      if ps.isEmpty then pairToString p
      else paramsToString ps ++ "&" ++ pairToString p := by
  induction ps with
  | nil => simp [paramsToString]
  | cons q t ih =>
    cases t with
    | nil => simp [paramsToString]
    | cons q2 t2 =>
      have e1 : paramsToString ((q :: q2 :: t2) ++ [p]) =
          pairToString q ++ "&" ++ paramsToString ((q2 :: t2) ++ [p]) := rfl
      rw [e1, ih, if_neg (by simp), if_neg (by simp)]
      have e2 : paramsToString (q :: q2 :: t2) =
          pairToString q ++ "&" ++ paramsToString (q2 :: t2) := rfl
      rw [e2]
      simp [strAppend_assoc]

theorem formEncodeChars_id (l : List Char) (h : ∀ c ∈ l, formUnreserved c = true) :
    formEncodeChars l = l := by
  induction l with
  | nil => rfl
  | cons c cs ih =>
    simp only [formEncodeChars, formEncodeChar, h c (by simp), if_true]
    rw [ih (fun d hd => h d (by simp [hd]))]
    rfl

/-- Form encoding is the identity on strings of unreserved characters. -/
theorem formEncode_id (s : String) (h : ∀ c ∈ s.data, formUnreserved c = true) :
    formEncode s = s := by
  cases s with
  | mk l => exact congrArg String.mk (formEncodeChars_id l h)

theorem pairToString_rnd (r : String) (h : ∀ c ∈ r.data, formUnreserved c = true) :
    pairToString ("rnd", r) = "rnd=" ++ r := by
  show formEncode "rnd" ++ "=" ++ formEncode r = "rnd=" ++ r
  rw [formEncode_id r h]
  rfl

theorem paramsToString_rnd_ne_empty (pre : List (String × String)) (r : String)
    (h : ∀ c ∈ r.data, formUnreserved c = true) :
    paramsToString (pre ++ [("rnd", r)]) ≠ "" := by
  rw [paramsToString_append_single]
  split
  · rw [pairToString_rnd r h]
    intro he
    have hd := congrArg String.data he
    rw [strData_append] at hd
    have := (List.append_eq_nil.mp hd).1
    exact absurd this (by decide)
  · intro he
    have hd := congrArg String.data he
    simp only [strData_append] at hd
    have := (List.append_eq_nil.mp (List.append_eq_nil.mp hd).1).2
    exact absurd this (by decide)

/-- Distinct `rnd` tokens produce distinct query strings for `random`,
whatever the explicit options are.  The token produced by
`Math.random().toString()` consists of digits, `.`, `e` and `-`, all of
which are form-unreserved. -/
theorem randomQueryString_injective (o : RandomCatOptions) (r1 r2 : String)
    (hne : r1 ≠ r2)
    (h1 : ∀ c ∈ r1.data, formUnreserved c = true)
    (h2 : ∀ c ∈ r2.data, formUnreserved c = true) :
    queryString (randomParams o r1) ≠ queryString (randomParams o r2) := by
  intro he
  refine hne ?_
  rw [randomParams_canonical, randomParams_canonical] at he
  set P := seg o.size.isSome "size" (sizeStr (o.size.getD Size.Large)) ++
    seg o.theme.isSome "theme" (themeStr (o.theme.getD Theme.Default)) with hP
  rw [queryString, queryString, if_neg (paramsToString_rnd_ne_empty P r1 h1),
    if_neg (paramsToString_rnd_ne_empty P r2 h2)] at he
  have hpp : paramsToString (P ++ [("rnd", r1)]) = paramsToString (P ++ [("rnd", r2)]) := by
    have hd := congrArg String.data he
    simp only [strData_append] at hd
    exact String.ext (List.append_cancel_left hd)
  rw [paramsToString_append_single, paramsToString_append_single] at hpp
  by_cases hPe : P.isEmpty = true
  · rw [if_pos hPe, if_pos hPe, pairToString_rnd r1 h1, pairToString_rnd r2 h2] at hpp
    have hd := congrArg String.data hpp
    simp only [strData_append] at hd
    exact String.ext (List.append_cancel_left hd)
  · rw [if_neg hPe, if_neg hPe, pairToString_rnd r1 h1, pairToString_rnd r2 h2] at hpp
    have hd := congrArg String.data hpp
    simp only [strData_append] at hd
    exact String.ext (List.append_cancel_left (List.append_cancel_left hd))

/-- A concrete success response whose JSON body is the themes example of the
spec. -/
def themesResp : HttpResponse where
  ok := true
  statusText := "OK"
  bodyJson := Json.obj [("themes", Json.arr [Json.str "Default", Json.str "Xmas"])]

/-- A concrete success response whose JSON body is the count example of the
spec. -/
def countResp : HttpResponse where
  ok := true
  statusText := "OK"
  bodyJson := Json.obj [("count", Json.num 42)]

/-- Claim C1: for every byte sequence delivered as the response body of
`random` or `getById`, the `base64` output shape encodes it byte-exactly
(base64-decoding the result reproduces the original bytes), and the
`dataUrl` output shape equals the fixed `data:image/jpeg;base64,` prefix
followed by exactly that same base64 encoding, so stripping the prefix and
decoding also reproduces the original bytes. -/
theorem claim1_base64_dataUrl_roundtrip (bs : List Nat) (h : ∀ b ∈ bs, b < 256) :
    toResponseType bs ResponseType.base64 = ImageResponse.str (String.mk (btoa bs)) ∧
    atob (btoa bs) = bs ∧
    toResponseType bs ResponseType.dataUrl =
      ImageResponse.str ("data:image/jpeg;base64," ++ String.mk (btoa bs)) ∧
    atob (("data:image/jpeg;base64," ++ String.mk (btoa bs)).data.drop
      ("data:image/jpeg;base64," : String).length) = bs := by
  refine ⟨rfl, atob_btoa bs h, rfl, ?_⟩
  have e : ("data:image/jpeg;base64," ++ String.mk (btoa bs)).data =
      ("data:image/jpeg;base64," : String).data ++ btoa bs := rfl
  have e2 : ("data:image/jpeg;base64," : String).length =
      ("data:image/jpeg;base64," : String).data.length := rfl
  rw [e, e2, List.drop_left]
  exact atob_btoa bs h

theorem claim1_witness : atob (btoa [255, 0, 16]) = [255, 0, 16] :=
  (claim1_base64_dataUrl_roundtrip [255, 0, 16] (by decide)).2.1

/-- Claim C3: `getById(id, {size})` places exactly the chosen `Size` value,
unmodified, as the `size` query parameter, and `getById(id)` with no size
defaults to `Large`, i.e. `size=1024`; the seven `Size` tokens are the
literal enum values. -/
theorem claim3_getById_size (id : String) (s : Size) (rt : Option ResponseType) :
    getByIdUrl id { size := some s, responseType := rt } =
      ApiUrl ++ "/cat/" ++ id ++ "?size=" ++ sizeStr s ∧
    getByIdUrl id { size := none, responseType := rt } =
      ApiUrl ++ "/cat/" ++ id ++ "?size=" ++ "1024" ∧
    sizeStr Size.Large = "1024" ∧ sizeStr Size.Medium = "512" ∧
    sizeStr Size.Small = "256" ∧ sizeStr Size.Thumbnail = "128" ∧
    sizeStr Size.Icon = "64" ∧ sizeStr Size.Tiny = "32" ∧ sizeStr Size.Micro = "16" :=
  ⟨rfl, rfl, rfl, rfl, rfl, rfl, rfl, rfl, rfl⟩

/-- Claim C4: a non-success HTTP status makes every one of the eight
operations fail with an error naming the operation and carrying the
server's status text; no result value is produced.  Each handler consumes a
single response (one fetch per call), so no retry happens. -/
theorem claim4_error_propagation (resp : HttpResponse) (ro : RandomCatOptions)
    (go : GetByIdOptions) (h : resp.ok = false) :
    randomOp ro resp = Except.error ("Error fetching cat image: " ++ resp.statusText) ∧
    getByIdOp go resp = Except.error ("Error fetching cat image: " ++ resp.statusText) ∧
    getInfoOp resp = Except.error ("Error fetching cat info: " ++ resp.statusText) ∧
    searchOp resp = Except.error ("Error searching for cats: " ++ resp.statusText) ∧
    getSimilarOp resp = Except.error ("Error fetching similar cats: " ++ resp.statusText) ∧
    getSearchCompletionOp resp = Except.error ("Error fetching completion: " ++ resp.statusText) ∧
    getThemesOp resp = Except.error ("Error fetching themes: " ++ resp.statusText) ∧
    getCountOp resp = Except.error ("Error fetching count: " ++ resp.statusText) := by
  simp [randomOp, getByIdOp, getInfoOp, searchOp, getSimilarOp,
    getSearchCompletionOp, getThemesOp, getCountOp, h]

theorem claim4_witness :
    getByIdOp {} { ok := false, statusText := "Not Found" } =
      Except.error ("Error fetching cat image: " ++ "Not Found") :=
  (claim4_error_propagation { ok := false, statusText := "Not Found" } {} {} rfl).2.1

/-- Claim C5: the `rnd` cache-busting pair is always present, and two calls
to `random` with identical explicit options but distinct `rnd` tokens (as
produced by fresh invocations of `Math.random().toString()`, whose output
consists of the unreserved characters 0-9, `.`, `e`, `-`) generate
different query strings and different request URLs. -/
theorem claim5_rnd_cache_busting (o : RandomCatOptions) (r1 r2 : String)
    (hne : r1 ≠ r2)
    (h1 : ∀ c ∈ r1.data, formUnreserved c = true)
    (h2 : ∀ c ∈ r2.data, formUnreserved c = true) :
    ("rnd", r1) ∈ randomParams o r1 ∧
    queryString (randomParams o r1) ≠ queryString (randomParams o r2) ∧
    randomUrl o r1 ≠ randomUrl o r2 := by
  have hq := randomQueryString_injective o r1 r2 hne h1 h2
  refine ⟨?_, hq, ?_⟩
  · rw [randomParams_canonical]
    simp
  · intro he
    refine hq ?_
    simp only [randomUrl] at he
    have hd := congrArg String.data he
    simp only [strData_append] at hd
    exact String.ext (List.append_cancel_left hd)

theorem claim5_witness :
    queryString (randomParams {} "0.25") ≠ queryString (randomParams {} "0.75") :=
  (claim5_rnd_cache_busting {} "0.25" "0.75" (by decide) (by decide) (by decide)).2.1

/-- Claim C7 counterexample: the claim asserts that getThemes targets the
fixed path `/cat/theme-list`, citing both observed variants of the source
file, but the second variant's getThemes fetches `/cat/themes`. -/
theorem claim7_counterexample :
    getThemesV2Url = "https://api.ai-cats.net/v1/cat/themes" ∧
    getThemesV2Url ≠ ApiUrl ++ "/cat/theme-list" := by
  refine ⟨rfl, ?_⟩
  decide

/-- Claim C7 (amended): the primary getThemes issues a GET to
`/cat/theme-list`, the second observed variant to `/cat/themes`; both
return the value of the JSON field named `themes`, not the bare JSON root,
so a body with themes Default and Xmas yields exactly that list. -/
theorem claim7_getThemes (resp : HttpResponse) (h : resp.ok = true) :
    getThemesUrl = ApiUrl ++ "/cat/theme-list" ∧
    getThemesV2Url = ApiUrl ++ "/cat/themes" ∧
    getThemesOp resp = Except.ok (resp.bodyJson.getField "themes") ∧
    getThemesOp themesResp =
      Except.ok (Json.arr [Json.str "Default", Json.str "Xmas"]) := by
  refine ⟨rfl, rfl, ?_, rfl⟩
  simp [getThemesOp, h]

theorem claim7_witness :
    getThemesOp themesResp =
      Except.ok (Json.arr [Json.str "Default", Json.str "Xmas"]) :=
  (claim7_getThemes themesResp rfl).2.2.2

/-- Claim C8: getCount issues a GET to `/cat/count`, with the theme appended
as a bare `?theme=` suffix exactly when a theme argument is present, and
returns the value of the JSON field named `count`; a success body with
count 42 yields exactly 42. -/
theorem claim8_getCount (t : Theme) (resp : HttpResponse) (h : resp.ok = true) :
    getCountUrl (some t) = ApiUrl ++ "/cat/count" ++ ("?theme=" ++ themeStr t) ∧
    getCountUrl none = ApiUrl ++ "/cat/count" ∧
    getCountOp resp = Except.ok (resp.bodyJson.getField "count") ∧
    getCountOp countResp = Except.ok (Json.num 42) := by
  refine ⟨rfl, ?_, ?_, rfl⟩
  · show ApiUrl ++ "/cat/count" ++ "" = ApiUrl ++ "/cat/count"
    apply String.ext
    simp [strData_append]
  · simp [getCountOp, h]

theorem claim8_witness :
    getCountOp countResp = Except.ok (Json.num 42) :=
  (claim8_getCount Theme.Default countResp rfl).2.2.2

/-- Claim C9: with `responseType` unspecified, `random` and `getById` shape
the bytes as a Blob tagged `image/jpeg` (identical to an explicit `blob`),
and `arrayBuffer` yields the raw bytes untagged. -/
theorem claim9_default_blob (buf : List Nat) (sz : Option Size) (th : Option Theme)
    (gsz : Option Size) (resp : HttpResponse) :
    toResponseType buf ResponseType.blob = ImageResponse.blob buf "image/jpeg" ∧
    toResponseType buf ResponseType.arrayBuffer = ImageResponse.arrayBuffer buf ∧
    randomOp { size := sz, theme := th, responseType := none } resp =
      randomOp { size := sz, theme := th, responseType := some ResponseType.blob } resp ∧
    getByIdOp { size := gsz, responseType := none } resp =
      getByIdOp { size := gsz, responseType := some ResponseType.blob } resp ∧
    (resp.ok = true → randomOp { size := sz, theme := th, responseType := none } resp =
      Except.ok (ImageResponse.blob resp.bodyBytes "image/jpeg")) := by
  refine ⟨rfl, rfl, rfl, rfl, fun h => ?_⟩
  simp [randomOp, h, toResponseType]

theorem claim9_witness :
    randomOp {} { ok := true, statusText := "OK", bodyBytes := [1, 2, 3] } =
      Except.ok (ImageResponse.blob [1, 2, 3] "image/jpeg") :=
  (claim9_default_blob [1, 2, 3] none none none
    { ok := true, statusText := "OK", bodyBytes := [1, 2, 3] }).2.2.2.2 rfl

@[simp] theorem truthyB_eq_true (ob : Option Bool) : truthyB ob = true ↔ ob = some true := by
  cases ob with
  | none => simp [truthyB]
  | some b => cases b <;> simp [truthyB]

/-- Every key of `searchParams` comes from a present (truthy) field. -/
theorem keys_searchParams_sub (o : SearchOptions) {k : String}
    (hmem : k ∈ (searchParams o).map Prod.fst) :
    (k = "query" ∧ truthyS o.query = true) ∨ (k = "limit" ∧ truthyN o.limit = true) ∨
    (k = "from" ∧ truthyS o.«from» = true) ∨
    (k = "descending" ∧ truthyB o.descending = true) ∨
    (k = "theme" ∧ o.theme.isSome = true) ∨ (k = "size" ∧ o.size.isSome = true) := by
  rw [searchParams_canonical] at hmem
  simp only [List.map_append, List.mem_append] at hmem
  rcases hmem with ((((h | h) | h) | h) | h) | h
  · rcases List.mem_map.mp h with ⟨p, hp, he⟩
    exact Or.inl ⟨he.symm.trans (seg_key hp), (mem_seg hp).1⟩
  · rcases List.mem_map.mp h with ⟨p, hp, he⟩
    exact Or.inr (Or.inl ⟨he.symm.trans (seg_key hp), (mem_seg hp).1⟩)
  · rcases List.mem_map.mp h with ⟨p, hp, he⟩
    exact Or.inr (Or.inr (Or.inl ⟨he.symm.trans (seg_key hp), (mem_seg hp).1⟩))
  · rcases List.mem_map.mp h with ⟨p, hp, he⟩
    exact Or.inr (Or.inr (Or.inr (Or.inl ⟨he.symm.trans (seg_key hp), (mem_seg hp).1⟩)))
  · rcases List.mem_map.mp h with ⟨p, hp, he⟩
    exact Or.inr (Or.inr (Or.inr (Or.inr (Or.inl
      ⟨he.symm.trans (seg_key hp), (mem_seg hp).1⟩))))
  · rcases List.mem_map.mp h with ⟨p, hp, he⟩
    exact Or.inr (Or.inr (Or.inr (Or.inr (Or.inr
      ⟨he.symm.trans (seg_key hp), (mem_seg hp).1⟩))))

theorem count_keys_seg {c : Bool} {k v k2 : String} (h : k2 ≠ k) :
    ((seg c k v).map Prod.fst).count k2 = 0 := by
  rw [List.count_eq_zero]
  exact not_mem_keys_seg h

/-- Claim C2: for every option bundle given to `search` or
`getSearchCompletion`, a field left unset contributes no key to the query
parameters and no empty-value pair ever appears; `descending: false` (or
unset) never appends a `descending` parameter, while `descending: true`
appends exactly the single pair `descending=true`; `getSearchCompletion`
builds exactly the same parameters. -/
theorem claim2_unset_fields_absent (o : SearchOptions) :
    (o.query = none → "query" ∉ (searchParams o).map Prod.fst) ∧
    (o.limit = none → "limit" ∉ (searchParams o).map Prod.fst) ∧
    (o.«from» = none → "from" ∉ (searchParams o).map Prod.fst) ∧
    (o.theme = none → "theme" ∉ (searchParams o).map Prod.fst) ∧
    (o.size = none → "size" ∉ (searchParams o).map Prod.fst) ∧
    (o.descending ≠ some true → "descending" ∉ (searchParams o).map Prod.fst) ∧
    (o.descending = some true → ("descending", "true") ∈ searchParams o ∧
      ((searchParams o).map Prod.fst).count "descending" = 1) ∧
    (∀ p ∈ searchParams o, p.2 ≠ "") ∧
    getSearchCompletionParams o = searchParams o := by
  refine ⟨?_, ?_, ?_, ?_, ?_, ?_, ?_, ?_, rfl⟩
  · intro hq hmem
    have hsub := keys_searchParams_sub o hmem
    simp [hq, truthyS] at hsub
  · intro hl hmem
    have hsub := keys_searchParams_sub o hmem
    simp [hl, truthyN] at hsub
  · intro hf hmem
    have hsub := keys_searchParams_sub o hmem
    simp [hf, truthyS] at hsub
  · intro ht hmem
    have hsub := keys_searchParams_sub o hmem
    simp [ht] at hsub
  · intro hs hmem
    have hsub := keys_searchParams_sub o hmem
    simp [hs] at hsub
  · intro hd hmem
    have hsub := keys_searchParams_sub o hmem
    simp [hd] at hsub
  · intro hd
    constructor
    · rw [searchParams_canonical, hd]
      simp [truthyB, seg]
    · rw [searchParams_canonical, hd]
      simp only [List.map_append, List.count_append]
      have hA : ((seg (truthyS o.query) "query" (o.query.getD "")).map
          Prod.fst).count "descending" = 0 := count_keys_seg (by decide)
      have hB : ((seg (truthyN o.limit) "limit" (toString (o.limit.getD 0))).map
          Prod.fst).count "descending" = 0 := count_keys_seg (by decide)
      have hC : ((seg (truthyS o.«from») "from" (o.«from».getD "")).map
          Prod.fst).count "descending" = 0 := count_keys_seg (by decide)
      have hD : ((seg (truthyB (some true)) "descending" "true").map
          Prod.fst).count "descending" = 1 := by decide
      have hE : ((seg o.theme.isSome "theme" (themeStr (o.theme.getD
          Theme.Default))).map Prod.fst).count "descending" = 0 :=
        count_keys_seg (by decide)
      have hF : ((seg o.size.isSome "size" (sizeStr (o.size.getD
          Size.Large))).map Prod.fst).count "descending" = 0 :=
        count_keys_seg (by decide)
      rw [hA, hB, hC, hD, hE, hF]
  · intro p hp
    rw [searchParams_canonical] at hp
    simp only [List.mem_append] at hp
    rcases hp with ((((h | h) | h) | h) | h) | h
    · rcases mem_seg h with ⟨hc, hpe⟩
      rw [hpe]
      cases hq : o.query with
      | none =>
        rw [hq] at hc
        simp [truthyS] at hc
      | some q =>
        rw [hq] at hc
        simp [truthyS] at hc
        show q ≠ ""
        exact hc
    · rw [(mem_seg h).2]
      exact natToString_ne_empty _
    · rcases mem_seg h with ⟨hc, hpe⟩
      rw [hpe]
      cases hf : o.«from» with
      | none =>
        rw [hf] at hc
        simp [truthyS] at hc
      | some f =>
        rw [hf] at hc
        simp [truthyS] at hc
        show f ≠ ""
        exact hc
    · rw [(mem_seg h).2]
      decide
    · rw [(mem_seg h).2]
      exact themeStr_ne_empty _
    · rw [(mem_seg h).2]
      exact sizeStr_ne_empty _

theorem claim2_witness :
    ("descending", "true") ∈ searchParams { descending := some true } ∧
    ((searchParams { descending := some true }).map Prod.fst).count "descending" = 1 :=
  (claim2_unset_fields_absent { descending := some true }).2.2.2.2.2.2.1 rfl

/-- Claim C6 counterexample: the claim states that pairs appear in the
order size, theme, query, limit, from, descending; but with both query and
size present, `search` emits query first and size last. -/
theorem claim6_counterexample :
    (searchParams { query := some "cat", size := some Size.Large }).map Prod.fst =
      ["query", "size"] ∧
    (["query", "size"] : List String) ≠ ["size", "query"] := by
  refine ⟨by decide, by decide⟩

/-- Claim C6 (amended): the key=value pairs appear in a stable order, namely
the source's insertion order — query, limit, from, descending, theme, size
for `search` and `getSearchCompletion` (which build identical parameters);
size, theme, then the always-present rnd for `random`; limit, size for
`getSimilar`. -/
theorem claim6_stable_order (o : SearchOptions) (ro : RandomCatOptions)
    (so : SimilarOptions) (rnd : String) :
    (searchParams o).map Prod.fst =
      (if truthyS o.query then ["query"] else []) ++
      (if truthyN o.limit then ["limit"] else []) ++
      (if truthyS o.«from» then ["from"] else []) ++
      (if truthyB o.descending then ["descending"] else []) ++
      (if o.theme.isSome then ["theme"] else []) ++
      (if o.size.isSome then ["size"] else []) ∧
    (getSearchCompletionParams o).map Prod.fst = (searchParams o).map Prod.fst ∧
    (randomParams ro rnd).map Prod.fst =
      (if ro.size.isSome then ["size"] else []) ++
      (if ro.theme.isSome then ["theme"] else []) ++ ["rnd"] ∧
    (similarParams so).map Prod.fst =
      (if truthyN so.limit then ["limit"] else []) ++
      (if so.size.isSome then ["size"] else []) := by
  refine ⟨?_, rfl, ?_, ?_⟩
  · rw [searchParams_canonical]
    simp [map_fst_seg]
  · rw [randomParams_canonical]
    simp [map_fst_seg]
  · rw [similarParams_canonical]
    simp [map_fst_seg]

/-- Claim C10: a field supplied with a falsy value (empty `query`, empty
`from`, `limit` 0) is omitted from the built parameters exactly as if it
had been left unset, for `search`, `getSearchCompletion` and `getSimilar`.
(`random` has no string- or number-valued option fields, so no falsy
non-absent value exists for it.) -/
theorem claim10_falsy_fields_omitted (o : SearchOptions) (so : SimilarOptions) :
    (o.query = some "" → searchParams o = searchParams { o with query := none }) ∧
    (o.limit = some 0 → searchParams o = searchParams { o with limit := none }) ∧
    (o.«from» = some "" → searchParams o = searchParams { o with «from» := none }) ∧
    (o.query = some "" → getSearchCompletionParams o =
      getSearchCompletionParams { o with query := none }) ∧
    (so.limit = some 0 → similarParams so = similarParams { so with limit := none }) := by
  refine ⟨?_, ?_, ?_, ?_, ?_⟩
  · intro h
    rw [searchParams_canonical, searchParams_canonical, h]
    rfl
  · intro h
    rw [searchParams_canonical, searchParams_canonical, h]
    rfl
  · intro h
    rw [searchParams_canonical, searchParams_canonical, h]
    rfl
  · intro h
    rw [getSearchCompletionParams_eq, getSearchCompletionParams_eq,
      searchParams_canonical, searchParams_canonical, h]
    rfl
  · intro h
    rw [similarParams_canonical, similarParams_canonical, h]
    rfl

theorem claim10_witness :
    searchParams { query := some "", limit := some 5 } =
      searchParams { query := none, limit := some 5 } :=
  (claim10_falsy_fields_omitted { query := some "", limit := some 5 } {}).1 rfl

end AiCats
